import Mathlib

/-!
Verification of the heuristic document-reconstruction engine of
`simple_pdf_converter.py` (PDF→Word converter).  Lines and cell contents are
modelled as `List Char`; the per-file conversion pipeline is embedded as pure
functions translated statement-by-statement from the source, and the claims
of the specification are settled as theorems below the definitions.
-/

namespace PdfConv

/-- Text is modelled as a list of characters (Python `str`). -/
abbrev Str := List Char

/-- Convert a Lean string literal to the `List Char` model. -/
def toL (s : String) : Str := s.data

/-- Python `str.strip()`: remove whitespace from both ends. -/
def pyStrip (s : Str) : Str :=
  ((s.dropWhile Char.isWhitespace).reverse.dropWhile Char.isWhitespace).reverse

/-- Python `str.isupper()`: at least one cased character and no lowercase
character (ASCII model: cased = alphabetic). -/
def pyIsUpperStr (s : Str) : Bool :=
  s.any Char.isAlpha && s.all (fun c => !c.isLower)

/-- Python `str.isdigit()`: non-empty and all characters are digits. -/
def pyIsDigitStr (s : Str) : Bool :=
  !s.isEmpty && s.all Char.isDigit

/-- Python `line[0].isupper()` for a line already known non-empty
(`False` on the empty line, which the source never reaches). -/
def firstIsUpper (s : Str) : Bool :=
  match s with
  | [] => false
  | c :: _ => c.isUpper

/-- Python `line.endswith(c)` for a single character `c`. -/
def lastIs (s : Str) (c : Char) : Bool :=
  s.getLast? == some c

/-- Keyword list of `is_main_title` (source lines 193-197). -/
def mainTitleWords : List Str :=
  [toL "overview", toL "introduction", toL "benefits", toL "features",
   toL "solution", toL "services", toL "why", toL "how", toL "what",
   toL "branded calling", toL "productivity", toL "appendix",
   toL "methodology", toL "verizon", toL "empowerment"]

/-- Keyword list of `is_subtitle` (source lines 212-215). -/
def subtitleWords : List Str :=
  [toL "create", toL "project", toL "customer", toL "workshop",
   toL "deliverables", toL "findings", toL "different", toL "calling",
   toL "profiles", toL "answer", toL "quandary"]

/-- `w` is a prefix of `l` (model of Python `str.startswith`). -/
def startsWith : Str → Str → Bool
  | [], _ => true
  | _ :: _, [] => false
  | a :: as, b :: bs => a == b && startsWith as bs

/-- Python substring containment `w in l`. -/
def containsSub (w : Str) : Str → Bool
  | [] => w.isEmpty
  | c :: rest => startsWith w (c :: rest) || containsSub w rest

/-- Python `any(word in line.lower() for word in words)`. -/
def anyWordIn (words : List Str) (line : Str) : Bool :=
  words.any (fun w => containsSub w (line.map Char.toLower))

/-- `is_main_title` (source lines 179-200). -/
def is_main_title (line : Str) : Bool :=
  if line.isEmpty || decide (line.length > 150) then false
  else if decide (line.length < 80) && pyIsUpperStr line then true
  else if (decide (line.length < 100) && !(lastIs line '.') && !(lastIs line ','))
          && (firstIsUpper line && anyWordIn mainTitleWords line) then true
  else false

/-- `is_subtitle` (source lines 202-218).  Python operator precedence groups
the inner condition as `ends-with-? OR (no-final-punct AND keyword)`. -/
def is_subtitle (line : Str) : Bool :=
  if line.isEmpty || decide (line.length > 120) then false
  else if decide (line.length < 120)
          && (firstIsUpper line
              && (lastIs line '?'
                  || (!(lastIs line '.') && !(lastIs line ',')) && anyWordIn subtitleWords line))
          then true
  else false

/-- Bullet marker glyphs of `is_bullet_point` and `clean_bullet_point`. -/
def bulletMarkers : List Char := ['•', '-', '*', '○']

/-- `is_bullet_point` (source line 283-285): a marker glyph, or a single
digit followed by a dot. -/
def is_bullet_point (line : Str) : Bool :=
  (match line with
   | c :: _ => bulletMarkers.contains c
   | [] => false)
  || (match line with
      | c :: d :: _ => c.isDigit && d == '.'
      | _ => false)

/-- Whether the line matches the regex `^\d+\.` of `clean_bullet_point`. -/
def startsNumDot (line : Str) : Bool :=
  (match line with
   | c :: _ => c.isDigit
   | [] => false)
  && ((line.dropWhile Char.isDigit).headD ' ' == '.')

/-- `clean_bullet_point` (source lines 220-232): strip one leading marker
glyph and trim, else strip a leading `digits.` and following whitespace. -/
def clean_bullet_point (line : Str) : Str :=
  if (match line with
      | c :: _ => bulletMarkers.contains c
      | [] => false) then pyStrip (line.drop 1)
  else if startsNumDot line then
    ((line.dropWhile Char.isDigit).drop 1).dropWhile Char.isWhitespace
  else line

/-- The category a trimmed line is assigned by the dispatch sequence of
`process_text_content` (source lines 125-157). -/
inductive Category where
  | noise
  | mainTitle
  | subtitle
  | bulletItem
  | plainText
deriving DecidableEq, Repr

/-- Line classification: the test sequence of `process_text_content`
(source lines 129-158), first match wins.  The input is the trimmed line. -/
def classify (line : Str) : Category :=
  if line.isEmpty then .noise
  else if pyIsDigitStr line && decide (line.length ≤ 3) then .noise
  else if is_main_title line then .mainTitle
  else if is_subtitle line then .subtitle
  else if is_bullet_point line then .bulletItem
  else .plainText

/-- A table cell as extracted: possibly absent (`None`). -/
abbrev Cell := Option Str

/-- A raw extracted table: rows of cells, possibly ragged. -/
abbrev RawTable := List (List Cell)

/-- A structural block of the output document: what one call of the
document-writing collaborator appends. -/
inductive Block where
  | heading (level : Nat) (text : Str)
  | para (text : Str)
  | listItem (text : Str)
  | table (rows : List (List Str))
deriving DecidableEq, Repr

/-- `if cell and str(cell).strip()` of `has_meaningful_content`
(source line 114): a present, non-empty cell whose trimmed text is non-empty. -/
def cellFilled (cell : Cell) : Bool :=
  match cell with
  | none => false
  | some s => !s.isEmpty && !(pyStrip s).isEmpty

/-- `has_meaningful_content` (source lines 102-118).  The float comparison
`cells_with_content / total_cells >= 0.3` is modelled exactly as the rational
inequality `3 * total ≤ 10 * filled`, which agrees with the double-precision
comparison for any realistic cell count. -/
def has_meaningful_content (table_data : RawTable) : Bool :=
  if table_data.isEmpty then false
  else
    decide (0 < (table_data.map List.length).sum)
      && decide (3 * (table_data.map List.length).sum
                   ≤ 10 * (table_data.map (List.countP cellFilled)).sum)

/-- `line.endswith('.') or line.endswith(':') or line.endswith('!') or
line.endswith('?')` (source line 169). -/
def endsSentence (line : Str) : Bool :=
  lastIs line '.' || lastIs line ':' || lastIs line '!' || lastIs line '?'

/-- The paragraph-closing condition on the (trimmed) next line, source lines
172-176.  Python's conditional-expression precedence parses the source as
`(not next or title or subtitle or bullet or next[0].isupper()) if next else
False`, so an empty next line makes the whole condition `False`. -/
def closeCond (next_line : Str) : Bool :=
  if !next_line.isEmpty then
    next_line.isEmpty || is_main_title next_line || is_subtitle next_line
      || is_bullet_point next_line || firstIsUpper next_line
  else false

/-- Emit the pending open paragraph, if any, as a `ParagraphBlock`. -/
def parFlush : Option Str → List Block
  | none => []
  | some p => [Block.para p]

/-- Run accumulation of source lines 158-166: the text of a fresh paragraph,
or the open paragraph's text extended by a single space and the line. -/
def appendLine (cur : Option Str) (line : Str) : Str :=
  match cur with
  | none => line
  | some t => t ++ ' ' :: line

/-- The body of one loop iteration after the `line = line.strip()` of source
line 126; `line` is the trimmed line. -/
def stepLine (st : List Block × Option Str) (line next_line : Str) :
    List Block × Option Str :=
  if line.isEmpty then (st.1 ++ parFlush st.2, none)
  else if pyIsDigitStr line && decide (line.length ≤ 3) then st
  else if is_main_title line then (st.1 ++ parFlush st.2 ++ [Block.heading 1 line], none)
  else if is_subtitle line then (st.1 ++ parFlush st.2 ++ [Block.heading 2 line], none)
  else if is_bullet_point line then
    (st.1 ++ parFlush st.2 ++ [Block.listItem (clean_bullet_point line)], none)
  else if endsSentence line && closeCond next_line then
    (st.1 ++ [Block.para (appendLine st.2 line)], none)
  else (st.1, some (appendLine st.2 line))

/-- One iteration of the loop of `process_text_content` (source lines
125-177).  State: blocks appended so far and the open paragraph's
accumulated text.  `next_line` is the already-trimmed following line
(`""` at end of stream).  A paragraph is appended to the block list at the
moment it closes; since nothing else is appended while it is open, the
block order equals the document order of the source (which inserts the
paragraph at opening time and mutates it). -/
def assembleStep (st : List Block × Option Str) (rawLine next_line : Str) :
    List Block × Option Str :=
  stepLine st (pyStrip rawLine) next_line

/-- The loop of `process_text_content` over the whole line list; the next
line handed to each step is `text_lines[i + 1].strip()` when it exists and
`""` otherwise (source line 171). -/
def assembleRun : (List Block × Option Str) → List Str → List Block × Option Str
  | st, [] => st
  | st, l :: rest => assembleRun (assembleStep st l (pyStrip (rest.headD []))) rest

/-- `process_text_content` (source lines 120-177) as the block sequence it
appends to the document; a still-open paragraph at end of stream is already
part of the document and is flushed here. -/
def process_text_content (text_lines : List Str) : List Block :=
  (assembleRun ([], none) text_lines).1 ++ parFlush (assembleRun ([], none) text_lines).2

/-- Python `text.split('\n')`: split at every newline, keeping empty
segments (the empty string yields one empty segment). -/
def splitLines : Str → List Str
  | [] => [[]]
  | c :: rest =>
    if c == '\n' then [] :: splitLines rest
    else
      match splitLines rest with
      | [] => [[c]]
      | seg :: segs => (c :: seg) :: segs

/-- Cell cleaning of `add_table_to_document` (source lines 294-303): a
present cell is trimmed, an absent (`None`) cell becomes the empty string. -/
def cellClean (cell : Cell) : Str :=
  match cell with
  | none => []
  | some s => pyStrip s

/-- The `clean_data` grid of `add_table_to_document`. -/
def clean_table (table_data : RawTable) : List (List Str) :=
  table_data.map (fun row => row.map cellClean)

/-- `max(len(row) for row in clean_data)` over a non-empty list (source
line 310); `0` for the empty list as in the source's guard. -/
def max_cols (clean_data : List (List Str)) : Nat :=
  (clean_data.map List.length).foldl Nat.max 0

/-- Pad a row on the right with empty-string cells up to width `n`. -/
def padRow (row : List Str) (n : Nat) : List Str :=
  row ++ List.replicate (n - row.length) []

/-- `add_table_to_document` (source lines 287-327) as the blocks it appends:
nothing when the early guards fire, otherwise the rendered table followed by
the spacing empty paragraph of line 324.  The created grid has
`max_cols` columns per row with cells initially empty and cells `(i, j)` for
`j < len(row_i)` overwritten, i.e. every cleaned row padded to `max_cols`. -/
def add_table_to_document (table_data : RawTable) : List Block :=
  if table_data.isEmpty || (table_data.headD []).isEmpty then []
  else if !((clean_table table_data).any (fun row => row.any (fun cell => !cell.isEmpty)))
    then []
  else if max_cols (clean_table table_data) = 0 then []
  else
    [Block.table ((clean_table table_data).map
        (fun row => padRow row (max_cols (clean_table table_data)))),
     Block.para []]

/-- One extracted page (source lines 88-93). -/
structure PageContent where
  page_number : Nat
  text : Str
  tables : List RawTable
deriving DecidableEq, Repr

/-- `create_word_document` (source lines 234-262) as the block sequence of
the produced document: all page texts are concatenated into one flat line
list and processed, then every collected meaningful table is appended. -/
def create_word_document (content : List PageContent) : List Block :=
  process_text_content ((content.map (fun p => splitLines p.text)).flatten)
    ++ (((content.map (fun p =>
            p.tables.filter (fun t => !t.isEmpty && has_meaningful_content t))).flatten).map
          add_table_to_document).flatten

/-- `str(pdf_file).lower().endswith('.pdf')` (source line 66). -/
def pdfExt (f : Str) : Bool :=
  startsWith (toL ".pdf").reverse (f.map Char.toLower).reverse

/-- `validate_pdf_files` (source lines 57-77): keep, in order, the inputs
with a `.pdf` extension that exist; others are printed and skipped.
File existence is the oracle `fsExists`. -/
def validate_pdf_files (fsExists : Str → Bool) : List Str → List Str
  | [] => []
  | f :: rest =>
    if !pdfExt f then validate_pdf_files fsExists rest
    else if !fsExists f then validate_pdf_files fsExists rest
    else f :: validate_pdf_files fsExists rest

/-- `Path(p).stem`: the part of the final path component before its last
dot, when that dot is neither the first nor the last character of the
component. -/
def pathStem (p : Str) : Str :=
  let name := (p.reverse.takeWhile (fun c => c != '/')).reverse
  let r := name.reverse
  let ext := r.takeWhile (fun c => c != '.')
  if ext.length = r.length then name
  else if ext.length = 0 then name
  else if ext.length + 1 = r.length then name
  else (r.drop (ext.length + 1)).reverse

/-- `convert_pdf_to_word` (source lines 357-384): extraction (the oracle
`extract`) yielding no page is a failure (`none`); otherwise the document —
whose blocks are `create_word_document` of the extracted content — is saved
under `<output_folder>/<stem>.docx` and that path is returned. -/
def convert_pdf_to_word (extract : Str → List PageContent) (output_folder : Str)
    (pdf_path : Str) : Option Str :=
  if (extract pdf_path).isEmpty then none
  else some (output_folder ++ '/' :: (pathStem pdf_path ++ toL ".docx"))

/-- One per-file entry of the batch result dictionary (source lines 405-416). -/
structure FileResult where
  pdf : Str
  word : Option Str
  status : Str
deriving DecidableEq, Repr

/-- The batch result dictionary of `convert_all`. -/
structure BatchResult where
  successful : Nat
  failed : Nat
  files : List FileResult
deriving DecidableEq, Repr

/-- The accumulation loop of `convert_all` (source lines 400-416). -/
def convertFold (conv : Str → Option Str) : BatchResult → List Str → BatchResult
  | acc, [] => acc
  | acc, f :: rest =>
    match conv f with
    | some w =>
      convertFold conv
        ⟨acc.successful + 1, acc.failed,
         acc.files ++ [⟨f, some w, toL "success"⟩]⟩ rest
    | none =>
      convertFold conv
        ⟨acc.successful, acc.failed + 1,
         acc.files ++ [⟨f, none, toL "failed"⟩]⟩ rest

/-- `convert_all` (source lines 386-418): validate, return the zero result
when no file is valid, else convert the valid files in order. -/
def convert_all (fsExists : Str → Bool) (extract : Str → List PageContent)
    (output_folder : Str) (pdf_files : List Str) : BatchResult :=
  if (validate_pdf_files fsExists pdf_files).isEmpty then ⟨0, 0, []⟩
  else convertFold (convert_pdf_to_word extract output_folder) ⟨0, 0, []⟩
         (validate_pdf_files fsExists pdf_files)

/-!
Partiality-explicit variants.  Each function below is the same translation
of its source function, except that every string subscript the source does
not dominate by an emptiness test and every division is made explicit:
`none` marks a point where the Python code would raise (`IndexError` /
`ZeroDivisionError`).  The totality claims equate them with the pure
versions.
-/

/-- `is_main_title` with the `line[0]` subscript of source line 192 explicit. -/
def is_main_titleChk (line : Str) : Option Bool :=
  if line.isEmpty || decide (line.length > 150) then some false
  else if decide (line.length < 80) && pyIsUpperStr line then some true
  else if decide (line.length < 100) && !(lastIs line '.') && !(lastIs line ',') then
    match line.head? with
    | none => none
    | some c =>
      if c.isUpper && anyWordIn mainTitleWords line then some true else some false
  else some false

/-- `is_subtitle` with the `line[0]` subscript of source line 209 explicit. -/
def is_subtitleChk (line : Str) : Option Bool :=
  if line.isEmpty || decide (line.length > 120) then some false
  else if decide (line.length < 120) then
    match line.head? with
    | none => none
    | some c =>
      if c.isUpper
         && (lastIs line '?'
             || (!(lastIs line '.') && !(lastIs line ',')) && anyWordIn subtitleWords line)
      then some true else some false
  else some false

/-- The continuation condition with the `next_line[0]` subscript of source
line 176 explicit: it is evaluated only when the earlier disjuncts are false,
inside the branch where `next_line` is non-empty. -/
def closeCondChk (next_line : Str) : Option Bool :=
  if !next_line.isEmpty then
    if next_line.isEmpty || is_main_title next_line || is_subtitle next_line
        || is_bullet_point next_line then some true
    else
      match next_line.head? with
      | none => none
      | some c => some c.isUpper
  else some false

/-- The density comparison with the division by `total` explicit. -/
def ratioGE30 (filled total : Nat) : Option Bool :=
  if total = 0 then none else some (decide (3 * total ≤ 10 * filled))

/-- `has_meaningful_content` with the division of source line 118 explicit:
the short-circuiting `and` evaluates the ratio only when `total_cells > 0`. -/
def has_meaningful_contentChk (table_data : RawTable) : Option Bool :=
  if table_data.isEmpty then some false
  else if decide (0 < (table_data.map List.length).sum) then
    ratioGE30 ((table_data.map (List.countP cellFilled)).sum)
      ((table_data.map List.length).sum)
  else some false

/-!  Specification-side definitions, used to state claims against. -/

/-- Modelled from the spec (§4.2): classification as a priority-ordered rule
list; the first matching rule's category wins and a line matching no rule is
PlainText. -/
def firstMatch : List ((Str → Bool) × Category) → Str → Category
  | [], _ => .plainText
  | (p, c) :: rest, l => if p l then c else firstMatch rest l

/-- Modelled from the spec (§4.2): the declared priority order of the tests —
empty, page-number noise, main title, subtitle, bullet. -/
def specRules : List ((Str → Bool) × Category) :=
  [(fun l => l.isEmpty, .noise),
   (fun l => pyIsDigitStr l && decide (l.length ≤ 3), .noise),
   (is_main_title, .mainTitle),
   (is_subtitle, .subtitle),
   (is_bullet_point, .bulletItem)]

/-- Modelled from the spec (§4.1): a cell's trimmed string form, the absent
cell reading as empty. -/
def cellTrimmed (cell : Cell) : Str :=
  match cell with
  | none => []
  | some s => pyStrip s

/-- Modelled from the spec (§4.1): `total`, the count of all cells across
all rows. -/
def totalCellsSpec (t : RawTable) : Nat := t.flatten.length

/-- Modelled from the spec (§4.1): `filled`, the count of cells whose
trimmed string form is non-empty. -/
def filledCellsSpec (t : RawTable) : Nat :=
  t.flatten.countP (fun c => !(cellTrimmed c).isEmpty)

/-- Is the block a table block? -/
def isTableBlock : Block → Bool
  | .table _ => true
  | _ => false

/-!  Helper lemmas. -/

theorem cellFilled_eq (c : Cell) : cellFilled c = !(cellTrimmed c).isEmpty := by
  cases c with
  | none => rfl
  | some s =>
    cases s with
    | nil => rfl
    | cons a l => simp [cellFilled, cellTrimmed]

theorem filled_sum_eq (t : RawTable) :
    (t.map (List.countP cellFilled)).sum = filledCellsSpec t := by
  unfold filledCellsSpec
  rw [List.countP_flatten]
  congr 1
  apply List.map_congr_left
  intro row _
  apply List.countP_congr
  intro c _
  rw [cellFilled_eq]

theorem total_sum_eq (t : RawTable) :
    (t.map List.length).sum = totalCellsSpec t := by
  unfold totalCellsSpec
  rw [List.length_flatten]

theorem foldl_max_le_init : ∀ (l : List Nat) (a : Nat), a ≤ l.foldl Nat.max a := by
  intro l
  induction l with
  | nil => intro a; exact Nat.le_refl a
  | cons x xs ih =>
    intro a
    exact Nat.le_trans (Nat.le_max_left a x) (ih (Nat.max a x))

theorem mem_le_foldl_max : ∀ (l : List Nat) (a x : Nat), x ∈ l → x ≤ l.foldl Nat.max a := by
  intro l
  induction l with
  | nil => intro a x h; cases h
  | cons y ys ih =>
    intro a x h
    cases h with
    | head =>
      exact Nat.le_trans (Nat.le_max_right a y) (foldl_max_le_init ys (Nat.max a y))
    | tail _ h => exact ih (Nat.max a y) x h

theorem classify_plainText_iff (l : Str) : classify l = .plainText ↔
    l.isEmpty = false ∧ (pyIsDigitStr l && decide (l.length ≤ 3)) = false ∧
    is_main_title l = false ∧ is_subtitle l = false ∧ is_bullet_point l = false := by
  unfold classify
  split_ifs <;> simp_all

theorem parFlush_no_table (o : Option Str) : ∀ b ∈ parFlush o, isTableBlock b = false := by
  cases o <;> simp [parFlush, isTableBlock]

theorem stepLine_no_table (st : List Block × Option Str) (l n : Str)
    (h : ∀ b ∈ st.1, isTableBlock b = false) :
    ∀ b ∈ (stepLine st l n).1, isTableBlock b = false := by
  unfold stepLine
  split_ifs <;> intro b hb <;>
    try simp only [List.mem_append, List.mem_singleton] at hb
  · rcases hb with hb | hb
    · exact h b hb
    · exact parFlush_no_table _ b hb
  · exact h b hb
  · rcases hb with (hb | hb) | hb
    · exact h b hb
    · exact parFlush_no_table _ b hb
    · subst hb; rfl
  · rcases hb with (hb | hb) | hb
    · exact h b hb
    · exact parFlush_no_table _ b hb
    · subst hb; rfl
  · rcases hb with (hb | hb) | hb
    · exact h b hb
    · exact parFlush_no_table _ b hb
    · subst hb; rfl
  · rcases hb with hb | hb
    · exact h b hb
    · subst hb; rfl
  · exact h b hb

theorem assembleStep_no_table (st : List Block × Option Str) (l n : Str)
    (h : ∀ b ∈ st.1, isTableBlock b = false) :
    ∀ b ∈ (assembleStep st l n).1, isTableBlock b = false :=
  stepLine_no_table st (pyStrip l) n h

theorem assembleRun_no_table :
    ∀ (lines : List Str) (st : List Block × Option Str),
      (∀ b ∈ st.1, isTableBlock b = false) →
      ∀ b ∈ (assembleRun st lines).1, isTableBlock b = false := by
  intro lines
  induction lines with
  | nil => intro st h; exact h
  | cons l rest ih =>
    intro st h
    exact ih _ (assembleStep_no_table st l (pyStrip (rest.headD [])) h)

theorem process_no_table (lines : List Str) :
    ∀ b ∈ process_text_content lines, isTableBlock b = false := by
  intro b hb
  unfold process_text_content at hb
  rcases List.mem_append.mp hb with hb | hb
  · exact assembleRun_no_table lines ([], none) (by intro b h; cases h) b hb
  · exact parFlush_no_table _ b hb

theorem meaningful_facts (t : RawTable) (h : has_meaningful_content t = true) :
    t.isEmpty = false ∧ 0 < (t.map (List.countP cellFilled)).sum := by
  cases t with
  | nil => cases h
  | cons r rs =>
    unfold has_meaningful_content at h
    simp only [List.isEmpty_cons, Bool.false_eq_true, if_false, Bool.and_eq_true,
      decide_eq_true_eq] at h
    exact ⟨rfl, by omega⟩

theorem exists_filled_of_pos (t : RawTable)
    (h : 0 < (t.map (List.countP cellFilled)).sum) :
    ∃ row ∈ t, ∃ cell ∈ row, cellFilled cell = true := by
  by_contra hc
  push_neg at hc
  have hz : (t.map (List.countP cellFilled)).sum = 0 := by
    apply List.sum_eq_zero
    intro x hx
    rcases List.mem_map.mp hx with ⟨row, hrow, rfl⟩
    exact List.countP_eq_zero.mpr (fun cell hcell => by
      simpa using hc row hrow cell hcell)
  omega

theorem add_table_renders (t : RawTable) (hm : has_meaningful_content t = true)
    (hh : (t.headD []).isEmpty = false) :
    add_table_to_document t =
      [Block.table ((clean_table t).map (fun row => padRow row (max_cols (clean_table t)))),
       Block.para []] := by
  obtain ⟨he, hpos⟩ := meaningful_facts t hm
  obtain ⟨row, hrow, cell, hcell, hf⟩ := exists_filled_of_pos t hpos
  have hclean : (!(cellClean cell).isEmpty) = true := by
    cases cell with
    | none => cases hf
    | some s =>
      simp only [cellFilled, Bool.and_eq_true] at hf
      exact hf.2
  have hany : (clean_table t).any (fun row => row.any (fun cell => !cell.isEmpty)) = true := by
    refine List.any_eq_true.mpr ⟨row.map cellClean, List.mem_map_of_mem _ hrow, ?_⟩
    exact List.any_eq_true.mpr ⟨cellClean cell, List.mem_map_of_mem _ hcell, hclean⟩
  have hmc : max_cols (clean_table t) ≠ 0 := by
    have h1 : (row.map cellClean).length ∈ (clean_table t).map List.length :=
      List.mem_map_of_mem _ (List.mem_map_of_mem _ hrow)
    have h2 : (row.map cellClean).length ≤ max_cols (clean_table t) :=
      mem_le_foldl_max _ 0 _ h1
    have h3 : 0 < row.length := List.length_pos_of_mem hcell
    simp only [List.length_map] at h2
    omega
  unfold add_table_to_document
  simp only [he, hh, Bool.or_self, Bool.false_or, if_false, hany, Bool.not_true, hmc]
  simp [hany, hmc]

theorem table_block_mem (t : RawTable) (rows : List (List Str))
    (h : Block.table rows ∈ add_table_to_document t) :
    rows = (clean_table t).map (fun row => padRow row (max_cols (clean_table t))) := by
  unfold add_table_to_document at h
  split_ifs at h
  · cases h
  · cases h
  · cases h
  · simp only [List.mem_cons, List.not_mem_nil, or_false] at h
    rcases h with h | h
    · injection h with h
    · injection h

theorem padded_row_len (clean : List (List Str)) (r : List Str)
    (hr : r ∈ clean.map (fun row => padRow row (max_cols clean))) :
    r.length = max_cols clean := by
  rcases List.mem_map.mp hr with ⟨row, hrow, rfl⟩
  have h1 : row.length ≤ max_cols clean :=
    mem_le_foldl_max _ 0 _ (List.mem_map_of_mem List.length hrow)
  simp only [padRow, List.length_append, List.length_replicate]
  omega

theorem table_iff_aux (t : RawTable) : has_meaningful_content t = true ↔
    0 < totalCellsSpec t ∧ 3 * totalCellsSpec t ≤ 10 * filledCellsSpec t := by
  cases t with
  | nil => decide
  | cons r rs =>
    unfold has_meaningful_content
    simp only [List.isEmpty_cons, Bool.false_eq_true, if_false, Bool.and_eq_true,
      decide_eq_true_eq]
    rw [total_sum_eq, filled_sum_eq]

theorem validate_eq_filter (ex : Str → Bool) :
    ∀ fs : List Str, validate_pdf_files ex fs = fs.filter (fun f => pdfExt f && ex f) := by
  intro fs
  induction fs with
  | nil => rfl
  | cons f rest ih =>
    by_cases h1 : pdfExt f = true <;> by_cases h2 : ex f = true <;>
      simp [validate_pdf_files, List.filter_cons, h1, h2, ih]

theorem convertFold_shape (conv : Str → Option Str) :
    ∀ (fs : List Str) (acc : BatchResult),
      (convertFold conv acc fs).files.map FileResult.pdf = acc.files.map FileResult.pdf ++ fs ∧
      (convertFold conv acc fs).successful + (convertFold conv acc fs).failed
        = acc.successful + acc.failed + fs.length := by
  intro fs
  induction fs with
  | nil => intro acc; simp [convertFold]
  | cons f rest ih =>
    intro acc
    cases hc : conv f with
    | some w =>
      obtain ⟨hmap, hcnt⟩ :=
        ih ⟨acc.successful + 1, acc.failed, acc.files ++ [⟨f, some w, toL "success"⟩]⟩
      simp only [convertFold, hc] at hmap hcnt ⊢
      constructor
      · rw [hmap]; simp
      · simp only [List.length_cons]; omega
    | none =>
      obtain ⟨hmap, hcnt⟩ :=
        ih ⟨acc.successful, acc.failed + 1, acc.files ++ [⟨f, none, toL "failed"⟩]⟩
      simp only [convertFold, hc] at hmap hcnt ⊢
      constructor
      · rw [hmap]; simp
      · simp only [List.length_cons]; omega

/-!  Concrete inputs used by counterexamples and witnesses. -/

/-- A line of exactly 120 characters: uppercase first character, ending in
a question mark. -/
def line120 : Str := 'A' :: (List.replicate 118 'x' ++ ['?'])

/-- A meaningful table whose first row is empty. -/
def tEmptyFirstRow : RawTable := [[], [some (toL "a")]]

/-- A ragged table with row lengths 2, 3 and 1, containing one absent cell. -/
def tRagged : RawTable :=
  [[some (toL "a"), some (toL "b")], [some (toL "c"), none, some (toL "d")],
   [some (toL "e")]]

/-- Extraction oracle for the batch-isolation witness: the second file has no
extractable page, the others one page each. -/
def extractOracle : Str → List PageContent :=
  fun p => if p == toL "b.pdf" then [] else [⟨1, [], []⟩]

/-!  The claims. -/

/-- C1.  Line classification applies its tests in the fixed priority order
(empty line, page-number noise, MainTitle, Subtitle, BulletItem, PlainText),
first match wins: `classify` equals the first-match semantics of the
spec's ordered rule list, and concretely "OVERVIEW" classifies as MainTitle
and "• Introduction" as BulletItem. -/
theorem classifier_priority_c1 :
    (∀ l : Str, classify l = firstMatch specRules l) ∧
    classify (toL "OVERVIEW") = .mainTitle ∧
    classify (toL "• Introduction") = .bulletItem :=
  ⟨fun _ => rfl, by decide, by decide⟩

/-- C2.  The table quality filter accepts a table iff it has at least one
cell and the filled-cell ratio reaches 30%: `has_meaningful_content t = true`
iff `total > 0` and `filled / total ≥ 0.30` (as the exact rational
comparison `3 * total ≤ 10 * filled`); concretely the empty table and the
1/6-filled table are rejected and the 4/6-filled table is accepted. -/
theorem table_filter_density_c2 :
    (∀ t : RawTable, has_meaningful_content t = true ↔
       0 < totalCellsSpec t ∧ 3 * totalCellsSpec t ≤ 10 * filledCellsSpec t) ∧
    has_meaningful_content ([] : RawTable) = false ∧
    has_meaningful_content [[some (toL "a"), some (toL ""), some (toL "")],
        [some (toL ""), some (toL ""), some (toL "")]] = false ∧
    has_meaningful_content [[some (toL "a"), some (toL "b"), some (toL "")],
        [some (toL "c"), some (toL ""), some (toL "d")]] = true :=
  ⟨table_iff_aux, by decide, by decide, by decide⟩

/-- C3 (counterexample to the claim as stated).  After processing the single
line "Done." — a PlainText line ending in `.` whose next line is absent —
the paragraph state is still open (`some "Done."`), not closed as the claim
asserts. -/
theorem paragraph_open_at_stream_end_cex_c3 :
    classify (pyStrip (toL "Done.")) = .plainText ∧
    endsSentence (pyStrip (toL "Done.")) = true ∧
    (assembleRun ([], none) [toL "Done."]).2 = some (toL "Done.") := by
  refine ⟨by decide, by decide, by decide⟩

/-- C3 (as amended).  When the assembler processes a PlainText line ending
in one of `. : ! ?` and the next line is empty or absent (modelled as the
empty string), the paragraph REMAINS OPEN directly after that line: the
conditional-expression precedence in the source makes the whole closing
condition evaluate to False for an empty next line.  (The paragraph is
closed later, by a subsequent blank line or implicitly at end of stream, so
the emitted blocks are unaffected.) -/
theorem paragraph_stays_open_on_empty_next_c3 (blocks : List Block) (cur : Option Str)
    (l : Str) (hc : classify (pyStrip l) = .plainText)
    (hp : endsSentence (pyStrip l) = true) :
    (assembleStep (blocks, cur) l []).2.isSome = true := by
  obtain ⟨h1, h2, h3, h4, h5⟩ := (classify_plainText_iff (pyStrip l)).mp hc
  unfold assembleStep stepLine
  simp [h1, h2, h3, h4, h5, hp, closeCond]

/-- C3 witness: the general theorem applied to the line "Done." with empty
lookahead. -/
theorem paragraph_stays_open_on_empty_next_c3_wit :
    (assembleStep ([], none) (toL "Done.") []).2.isSome = true :=
  paragraph_stays_open_on_empty_next_c3 [] none (toL "Done.") (by decide) (by decide)

/-- C4.  The assembler merges ["This is a sentence.", "this continues."]
into one paragraph joined by a single space (lowercase next line keeps the
paragraph open) and splits ["This is a sentence.", "Next starts here."] into
two paragraphs (uppercase next line closes it). -/
theorem paragraph_merge_split_c4 :
    process_text_content [toL "This is a sentence.", toL "this continues."] =
      [Block.para (toL "This is a sentence. this continues.")] ∧
    process_text_content [toL "This is a sentence.", toL "Next starts here."] =
      [Block.para (toL "This is a sentence."), Block.para (toL "Next starts here.")] :=
  ⟨by decide, by decide⟩

/-- C5 (counterexample to the claim as stated).  The table [[], ["a"]] is
accepted by the quality filter (1 of 1 cells filled) but, its first row
being empty, `add_table_to_document` drops it, so the document built from a
page carrying it contains no TableBlock at all. -/
theorem accepted_table_dropped_cex_c5 :
    has_meaningful_content tEmptyFirstRow = true ∧
    create_word_document [⟨1, [], [tEmptyFirstRow]⟩] = [] :=
  ⟨by decide, by decide⟩

/-- C5 (as amended).  The built document is exactly the text blocks followed
by the rendering of the kept tables in page order then within-page order;
the text phase emits no TableBlock (so every rendered table lies after all
heading, paragraph and list blocks produced from the text); and every kept
table whose first row is non-empty is indeed rendered as a TableBlock
(followed by a spacing empty paragraph).  A kept table with an empty first
row is silently dropped at rendering. -/
theorem tables_after_text_c5 :
    (∀ content : List PageContent,
       create_word_document content =
         process_text_content ((content.map (fun p => splitLines p.text)).flatten)
           ++ (((content.map (fun p =>
                  p.tables.filter (fun t => !t.isEmpty && has_meaningful_content t))).flatten).map
                add_table_to_document).flatten ∧
       ∀ b ∈ process_text_content ((content.map (fun p => splitLines p.text)).flatten),
         isTableBlock b = false) ∧
    (∀ t : RawTable, has_meaningful_content t = true → (t.headD []).isEmpty = false →
       add_table_to_document t =
         [Block.table ((clean_table t).map
             (fun row => padRow row (max_cols (clean_table t)))),
          Block.para []]) :=
  ⟨fun content =>
    ⟨rfl, fun b hb =>
      process_no_table ((content.map (fun p => splitLines p.text)).flatten) b hb⟩,
   add_table_renders⟩

/-- C6.  Any table block rendered by `add_table_to_document` is the cleaned
grid (absent cells as empty strings) with every row padded to the table's
maximum row length by empty-string cells, hence rectangular; concretely the
ragged table with row lengths [2, 3, 1] renders with width 3. -/
theorem ragged_table_padding_c6 :
    (∀ (t : RawTable) (rows : List (List Str)),
       Block.table rows ∈ add_table_to_document t →
         rows = (clean_table t).map (fun row => padRow row (max_cols (clean_table t))) ∧
         ∀ r ∈ rows, r.length = max_cols (clean_table t)) ∧
    add_table_to_document tRagged =
      [Block.table [[toL "a", toL "b", []], [toL "c", [], toL "d"],
                    [toL "e", [], []]],
       Block.para []] := by
  constructor
  · intro t rows h
    have he := table_block_mem t rows h
    subst he
    exact ⟨rfl, fun r hr => padded_row_len _ r hr⟩
  · decide

/-- C7 (counterexample to the claim as stated).  A line of length exactly
120 with uppercase first character ending in `?`, matching none of the
higher-priority tests, is NOT classified Subtitle: the source's second
length check is strict (`len(line) < 120`), so the line falls through to
PlainText. -/
theorem subtitle_len120_cex_c7 :
    line120.length = 120 ∧ firstIsUpper line120 = true ∧ lastIs line120 '?' = true ∧
    line120.isEmpty = false ∧
    (pyIsDigitStr line120 && decide (line120.length ≤ 3)) = false ∧
    is_main_title line120 = false ∧
    classify line120 = .plainText := by
  refine ⟨by decide, by decide, by decide, by decide, by decide, by decide, by decide⟩

/-- C7 (as amended).  Every line of length at most 119 (strictly less than
120) whose first character is uppercase and which ends with `?`, and which
matches none of the higher-priority tests (non-empty, not page-number noise,
not MainTitle), classifies as Subtitle. -/
theorem subtitle_question_c7 (l : Str) (hlen : l.length < 120)
    (hup : firstIsUpper l = true) (hq : lastIs l '?' = true)
    (hne : l.isEmpty = false)
    (hnoise : (pyIsDigitStr l && decide (l.length ≤ 3)) = false)
    (hmt : is_main_title l = false) :
    classify l = .subtitle := by
  have h1 : decide (l.length > 120) = false := by simp; omega
  have h2 : decide (l.length < 120) = true := by simp [hlen]
  have hsub : is_subtitle l = true := by
    unfold is_subtitle
    simp [hne, h1, h2, hup, hq]
  unfold classify
  simp [hne, hnoise, hmt, hsub]

/-- C7 witness: the amended theorem applied to the line "Answer me?". -/
theorem subtitle_question_c7_wit : classify (toL "Answer me?") = .subtitle :=
  subtitle_question_c7 (toL "Answer me?") (by decide) (by decide) (by decide)
    (by decide) (by decide) (by decide)

/-- C8 (counterexample to the claim as stated).  For the single input
"missing.pdf" that does not exist, the batch result records NO failure
entry and a failed count of 0: the file is silently dropped by validation,
not rejected with a recorded validation Failure. -/
theorem invalid_file_silently_skipped_cex_c8 :
    (convert_all (fun _ => false) (fun _ => []) (toL "out") [toL "missing.pdf"]).failed = 0 ∧
    (convert_all (fun _ => false) (fun _ => []) (toL "out") [toL "missing.pdf"]).files = [] :=
  ⟨by decide, by decide⟩

/-- C8 (as amended).  Validation keeps exactly the inputs with a (case
insensitive) `.pdf` extension that exist, in order; inputs failing
validation are silently omitted from the batch result — they get no
per-file entry and count in neither the successful nor the failed tally
(the per-file entries are exactly the validated files, and
successful + failed equals their number). -/
theorem validation_filters_batch_c8 (ex : Str → Bool)
    (extract : Str → List PageContent) (folder : Str) (files : List Str) :
    validate_pdf_files ex files = files.filter (fun f => pdfExt f && ex f) ∧
    (convert_all ex extract folder files).files.map FileResult.pdf
      = validate_pdf_files ex files ∧
    (convert_all ex extract folder files).successful
        + (convert_all ex extract folder files).failed
      = (validate_pdf_files ex files).length := by
  refine ⟨validate_eq_filter ex files, ?_, ?_⟩ <;>
    unfold convert_all <;>
    by_cases h : (validate_pdf_files ex files).isEmpty = true
  · rw [List.isEmpty_iff] at h
    simp [h]
  · simp only [h, Bool.false_eq_true, if_false]
    simpa using (convertFold_shape (convert_pdf_to_word extract folder)
      (validate_pdf_files ex files) ⟨0, 0, []⟩).1
  · rw [List.isEmpty_iff] at h
    simp [h]
  · simp only [h, Bool.false_eq_true, if_false]
    simpa using (convertFold_shape (convert_pdf_to_word extract folder)
      (validate_pdf_files ex files) ⟨0, 0, []⟩).2

/-- C9.  Batch conversion processes files strictly in input order and
isolates failures: for three valid files whose middle one yields zero
extractable pages, the result lists success entries for files 1 and 3 and a
failure entry for file 2 in input order, with successful = 2 and failed = 1
— the middle failure does not abort the remaining conversions. -/
theorem batch_isolation_c9 (ex : Str → Bool) (extract : Str → List PageContent)
    (folder f1 f2 f3 : Str)
    (hp1 : pdfExt f1 = true) (hp2 : pdfExt f2 = true) (hp3 : pdfExt f3 = true)
    (he1 : ex f1 = true) (he2 : ex f2 = true) (he3 : ex f3 = true)
    (hx1 : (extract f1).isEmpty = false) (hx2 : (extract f2).isEmpty = true)
    (hx3 : (extract f3).isEmpty = false) :
    convert_all ex extract folder [f1, f2, f3] =
      ⟨2, 1,
       [⟨f1, some (folder ++ '/' :: (pathStem f1 ++ toL ".docx")), toL "success"⟩,
        ⟨f2, none, toL "failed"⟩,
        ⟨f3, some (folder ++ '/' :: (pathStem f3 ++ toL ".docx")), toL "success"⟩]⟩ := by
  have hv : validate_pdf_files ex [f1, f2, f3] = [f1, f2, f3] := by
    simp [validate_pdf_files, hp1, hp2, hp3, he1, he2, he3]
  unfold convert_all
  rw [hv]
  simp [convertFold, convert_pdf_to_word, hx1, hx2, hx3]

/-- C9 witness: the theorem applied to files "a.pdf", "b.pdf", "c.pdf" with
an extraction oracle giving the middle file no pages. -/
theorem batch_isolation_c9_wit :
    convert_all (fun _ => true) extractOracle (toL "out")
        [toL "a.pdf", toL "b.pdf", toL "c.pdf"] =
      ⟨2, 1,
       [⟨toL "a.pdf", some (toL "out" ++ '/' :: (pathStem (toL "a.pdf") ++ toL ".docx")),
         toL "success"⟩,
        ⟨toL "b.pdf", none, toL "failed"⟩,
        ⟨toL "c.pdf", some (toL "out" ++ '/' :: (pathStem (toL "c.pdf") ++ toL ".docx")),
         toL "success"⟩]⟩ :=
  batch_isolation_c9 (fun _ => true) extractOracle (toL "out")
    (toL "a.pdf") (toL "b.pdf") (toL "c.pdf")
    (by decide) (by decide) (by decide) rfl rfl rfl
    (by decide) (by decide) (by decide)

/-- C10.  The engine's operations are total: the partiality-explicit
variants — in which every string subscript not dominated by an emptiness
guard and the density division are explicit failure points — never fail and
agree with the pure functions on every input.  In particular `line[0]` in
the title/subtitle tests is reached only for non-empty lines, the
`next_line[0]` uppercase check only for non-empty next lines, and the
filled/total division only when the cell count is positive. -/
theorem engine_total_c10 :
    (∀ l : Str, is_main_titleChk l = some (is_main_title l)) ∧
    (∀ l : Str, is_subtitleChk l = some (is_subtitle l)) ∧
    (∀ l : Str, closeCondChk l = some (closeCond l)) ∧
    (∀ t : RawTable, has_meaningful_contentChk t = some (has_meaningful_content t)) := by
  refine ⟨?_, ?_, ?_, ?_⟩
  · intro l
    cases l with
    | nil => rfl
    | cons c cs =>
      unfold is_main_titleChk is_main_title
      simp only [List.head?_cons]
      split_ifs <;> simp_all [firstIsUpper]
  · intro l
    cases l with
    | nil => rfl
    | cons c cs =>
      unfold is_subtitleChk is_subtitle
      simp only [List.head?_cons]
      split_ifs <;> simp_all [firstIsUpper]
      omega
  · intro l
    cases l with
    | nil => rfl
    | cons c cs =>
      unfold closeCondChk closeCond
      simp only [List.head?_cons]
      split_ifs <;> simp_all [firstIsUpper]
  · intro t
    cases t with
    | nil => rfl
    | cons r rs =>
      unfold has_meaningful_contentChk has_meaningful_content ratioGE30
      split_ifs <;> simp_all

end PdfConv
